import Mathlib

/-!
Shallow embedding of the `Bank` class (src/bank.ts) of learn-user-stories.

The TypeScript class keeps two in-memory arrays, `accounts : AccountType[]`
and `usernames : string[]`, and exposes `createAccount`, `deposit`,
`withdraw` and `getBalance`.  Numbers in the source are JS numbers used only
at integer values in every operation of interest, so they are embedded as
`Int`.  Each throwing operation is embedded as a function returning a pair
of an `Except` result together with the post-state `Bank`; every `throw`
site of the source occurs before any mutation, so the error branches return
the input bank unchanged, exactly as the source leaves the arrays untouched
when it throws.
-/

/-- `AccountType` of src/types.ts: `{ id: number; balance: number }`. -/
structure AccountType where
  id : Int
  balance : Int
deriving DecidableEq, Repr

/-- The state of a `Bank` object: its two private arrays.  The TS
constructor stores both arguments without any validation. -/
structure Bank where
  accounts : List AccountType
  usernames : List String
deriving DecidableEq, Repr

/-- One constructor per `throw new Error("...")` site of src/bank.ts, named
after its message string.  The spec-level names map as: `InvalidAccountNumber`
= `invalidAccountNumber`, `UnknownUser` = `userNotFound`, `UnderageUser` =
`userUnder18`, `DuplicateAccount` = `accountAlreadyExists`, `AccountNotFound`
= `accountNotFound`, `InvalidAmount` = `invalidDepositAmount` /
`invalidWithdrawalAmount`, `InsufficientFunds` = `insufficientFunds`. -/
inductive BankError where
  | invalidAccountNumber
  | userNotFound
  | userUnder18
  | accountAlreadyExists
  | accountNotFound
  | invalidDepositAmount
  | invalidWithdrawalAmount
  | insufficientFunds
deriving DecidableEq, Repr

namespace Bank

/-- `findAccountById(id)`: `this.accounts.find((account) => account.id === id)`. -/
def findAccountById (b : Bank) (id : Int) : Option AccountType :=
  b.accounts.find? (fun account => account.id == id)

/-- `isAccountNumberInvalid(accountNumber)`:
`accountNumber.toString().length !== 10`.  For an integer-valued JS number,
`toString()` is the decimal digits without leading zeros, preceded by `-`
when negative, which is exactly Lean's `toString : Int → String`. -/
def isAccountNumberInvalid (accountNumber : Int) : Bool :=
  (toString accountNumber).length != 10

/-- `isUsernameExisits(username)`: `this.usernames.includes(username)`. -/
def isUsernameExisits (b : Bank) (username : String) : Bool :=
  b.usernames.contains username

/-- In the source, `find` returns a reference into the `accounts` array and
`account.balance += amount` / `-= amount` mutates that array entry in place.
This helper performs the corresponding functional update: it replaces the
first account whose `id` matches with `f` of it and leaves every other entry
(including later entries with the same id, which `find` never reaches)
untouched. -/
def updateFirstById (accounts : List AccountType) (id : Int)
    (f : AccountType → AccountType) : List AccountType :=
  match accounts with
  | [] => []
  | a :: rest =>
    if a.id == id then f a :: rest else a :: updateFirstById rest id f

/-- `createAccount(username, age, accountNumber)`.  The four `if` checks of
the source, in source order; on success a fresh `{ id: accountNumber,
balance: 0 }` is pushed onto `this.accounts` and returned. -/
def createAccount (b : Bank) (username : String) (age : Int)
    (accountNumber : Int) : Except BankError AccountType × Bank :=
  if isAccountNumberInvalid accountNumber then
    (.error .invalidAccountNumber, b)
  else if !(b.isUsernameExisits username) then
    (.error .userNotFound, b)
  else if age < 18 then
    (.error .userUnder18, b)
  else if (b.findAccountById accountNumber).isSome then
    (.error .accountAlreadyExists, b)
  else
    let account : AccountType := { id := accountNumber, balance := 0 }
    (.ok account, { b with accounts := b.accounts ++ [account] })

/-- `deposit(accountId, amount)`: find the account, reject a missing account
then a non-positive amount, then `account.balance += amount` and return the
updated account. -/
def deposit (b : Bank) (accountId : Int) (amount : Int) :
    Except BankError AccountType × Bank :=
  match b.findAccountById accountId with
  | none => (.error .accountNotFound, b)
  | some account =>
    if amount ≤ 0 then
      (.error .invalidDepositAmount, b)
    else
      let updated : AccountType := { account with balance := account.balance + amount }
      let accounts := updateFirstById b.accounts accountId
        (fun a => { a with balance := a.balance + amount })
      (.ok updated, { b with accounts := accounts })

/-- `withdraw(accountId, amount)`: find the account, reject a missing
account, a non-positive amount, then insufficient funds
(`account.balance < amount`), then `account.balance -= amount` and return
the updated account. -/
def withdraw (b : Bank) (accountId : Int) (amount : Int) :
    Except BankError AccountType × Bank :=
  match b.findAccountById accountId with
  | none => (.error .accountNotFound, b)
  | some account =>
    if amount ≤ 0 then
      (.error .invalidWithdrawalAmount, b)
    else if account.balance < amount then
      (.error .insufficientFunds, b)
    else
      let updated : AccountType := { account with balance := account.balance - amount }
      let accounts := updateFirstById b.accounts accountId
        (fun a => { a with balance := a.balance - amount })
      (.ok updated, { b with accounts := accounts })

/-- `getBalance(accountId)`: find the account, reject a missing account,
return its balance.  The source reads the array and never writes it. -/
def getBalance (b : Bank) (accountId : Int) : Except BankError Int × Bank :=
  match b.findAccountById accountId with
  | none => (.error .accountNotFound, b)
  | some account => (.ok account.balance, b)

end Bank

open Bank (findAccountById isAccountNumberInvalid isUsernameExisits updateFirstById)

/-- One call to one of the four public operations of the `Bank` class,
with its arguments. -/
inductive Op where
  | create (username : String) (age : Int) (accountNumber : Int)
  | dep (accountId : Int) (amount : Int)
  | wd (accountId : Int) (amount : Int)
  | bal (accountId : Int)
deriving DecidableEq, Repr

/-- The bank state after one operation call (the call's result is
discarded; a throwing call leaves the state as it was). -/
def Bank.applyOp (b : Bank) (op : Op) : Bank :=
  match op with
  | .create username age accountNumber => (b.createAccount username age accountNumber).2
  | .dep accountId amount => (b.deposit accountId amount).2
  | .wd accountId amount => (b.withdraw accountId amount).2
  | .bal accountId => (b.getBalance accountId).2

/-- The bank state after a sequence of operation calls. -/
def Bank.runOps (b : Bank) (ops : List Op) : Bank :=
  ops.foldl Bank.applyOp b

/-- Modelled from the spec: "Account `id` is always a 10-digit number
(exactly 10 decimal digits)".  An integer has exactly 10 decimal digits iff
its absolute value lies in `[10^9, 10^10)`.  This is the spec's wording of
the data-model invariant; the source instead checks
`accountNumber.toString().length !== 10`, which the two agree on only for
non-negative numbers (a negative number's `toString` spends one character
on the sign). -/
def hasTenDecimalDigits (n : Int) : Bool :=
  10 ^ 9 ≤ n.natAbs && n.natAbs < 10 ^ 10

/-- The data-model invariants as the spec states them: every balance is
non-negative, every id has exactly 10 decimal digits, and no two accounts
share an id. -/
def specInvariant (b : Bank) : Prop :=
  (∀ a ∈ b.accounts, 0 ≤ a.balance) ∧
  (∀ a ∈ b.accounts, hasTenDecimalDigits a.id = true) ∧
  b.accounts.Pairwise (fun x y => x.id ≠ y.id)

instance (b : Bank) : Decidable (specInvariant b) := by
  unfold specInvariant; infer_instance

/-- The invariant the code actually maintains: every balance is
non-negative, every id passes the source's account-number check (decimal
string of length 10), and no two accounts share an id. -/
def codeInvariant (b : Bank) : Prop :=
  (∀ a ∈ b.accounts, 0 ≤ a.balance) ∧
  (∀ a ∈ b.accounts, Bank.isAccountNumberInvalid a.id = false) ∧
  b.accounts.Pairwise (fun x y => x.id ≠ y.id)

instance (b : Bank) : Decidable (codeInvariant b) := by
  unfold codeInvariant; infer_instance

/-! ### Helper lemmas -/

/-- A successful `find?` splits the list at the first hit: everything before
it fails the predicate and the hit satisfies it. -/
theorem find?_eq_some_split {p : AccountType → Bool} :
    ∀ {l : List AccountType} {a : AccountType}, l.find? p = some a →
      ∃ l1 l2, l = l1 ++ a :: l2 ∧ (∀ x ∈ l1, p x = false) ∧ p a = true := by
  intro l
  induction l with
  | nil => intro a h; simp at h
  | cons y ys ih =>
    intro a h
    cases hy : p y with
    | true =>
      rw [List.find?_cons_of_pos _ hy] at h
      cases h
      exact ⟨[], ys, rfl, by simp, hy⟩
    | false =>
      rw [List.find?_cons_of_neg _ (by simp [hy])] at h
      obtain ⟨l1, l2, hl, h1, ha⟩ := ih h
      refine ⟨y :: l1, l2, by simp [hl], ?_, ha⟩
      intro x hx
      rcases List.mem_cons.mp hx with hx | hx
      · exact hx ▸ hy
      · exact h1 x hx

/-- `updateFirstById` rewrites exactly the first entry whose id matches and
keeps the rest of the list, including any later entries with the same id. -/
theorem updateFirstById_split (f : AccountType → AccountType)
    {l1 : List AccountType} (a : AccountType) (l2 : List AccountType) {id : Int}
    (h1 : ∀ x ∈ l1, x.id ≠ id) (h2 : a.id = id) :
    updateFirstById (l1 ++ a :: l2) id f = l1 ++ f a :: l2 := by
  induction l1 with
  | nil => simp [updateFirstById, h2]
  | cons y ys ih =>
    have hy : y.id ≠ id := h1 y (by simp)
    simp [updateFirstById, hy, ih (fun x hx => h1 x (by simp [hx]))]

/-- `find?` over a list whose prefix has no matching id returns the splice
point, whatever follows it. -/
theorem find?_first_of_split {l1 : List AccountType} (a : AccountType)
    (l2 : List AccountType) (h1 : ∀ x ∈ l1, x.id ≠ a.id) :
    (l1 ++ a :: l2).find? (fun x => x.id == a.id) = some a := by
  induction l1 with
  | nil => exact List.find?_cons_of_pos _ (by simp)
  | cons y ys ih =>
    have hy : y.id ≠ a.id := h1 y (by simp)
    rw [List.cons_append, List.find?_cons_of_neg _ (by simp [hy])]
    exact ih (fun x hx => h1 x (by simp [hx]))

/-- A successful `findAccountById` splits the account list at the first
account with the requested id, and determines `updateFirstById`. -/
theorem findAccountById_decomp {b : Bank} {id : Int} {a : AccountType}
    (h : b.findAccountById id = some a) :
    ∃ l1 l2, b.accounts = l1 ++ a :: l2 ∧ (∀ x ∈ l1, x.id ≠ id) ∧ a.id = id ∧
      ∀ f, updateFirstById b.accounts id f = l1 ++ f a :: l2 := by
  obtain ⟨l1, l2, hl, h1, ha⟩ := find?_eq_some_split h
  have ha' : a.id = id := by simpa using ha
  have h1' : ∀ x ∈ l1, x.id ≠ id := fun x hx => by simpa using h1 x hx
  exact ⟨l1, l2, hl, h1', ha',
    fun f => by rw [hl]; exact updateFirstById_split f a l2 h1' ha'⟩

/-- `updateFirstById` with an id-preserving function keeps the list of ids. -/
theorem updateFirstById_map_id (l : List AccountType) (id : Int)
    (f : AccountType → AccountType) (hf : ∀ x, (f x).id = x.id) :
    (updateFirstById l id f).map AccountType.id = l.map AccountType.id := by
  induction l with
  | nil => rfl
  | cons y ys ih =>
    by_cases hy : y.id = id <;> simp [updateFirstById, hy, hf, ih]

/-- Membership in an updated list: every element is an old element or the
image of an old element. -/
theorem mem_updateFirstById {l : List AccountType} {id : Int}
    {f : AccountType → AccountType} {x : AccountType}
    (hx : x ∈ updateFirstById l id f) : x ∈ l ∨ ∃ a ∈ l, x = f a := by
  induction l with
  | nil => simp [updateFirstById] at hx
  | cons y ys ih =>
    by_cases hy : y.id = id
    · simp only [updateFirstById, beq_iff_eq, if_pos hy] at hx
      rcases List.mem_cons.mp hx with hx | hx
      · exact Or.inr ⟨y, by simp, hx⟩
      · exact Or.inl (by simp [hx])
    · simp only [updateFirstById, beq_iff_eq, if_neg hy] at hx
      rcases List.mem_cons.mp hx with hx | hx
      · exact Or.inl (by simp [hx])
      · rcases ih hx with h | ⟨a, ha, hfa⟩
        · exact Or.inl (by simp [h])
        · exact Or.inr ⟨a, by simp [ha], hfa⟩

/-- The pairwise-distinct-ids invariant only depends on the list of ids. -/
theorem pairwise_ids_iff (l : List AccountType) :
    l.Pairwise (fun x y => x.id ≠ y.id) ↔ (l.map AccountType.id).Nodup := by
  unfold List.Nodup
  rw [List.pairwise_map]

/-- `getBalance` returns the same bank in every branch. -/
theorem getBalance_snd (b : Bank) (accountId : Int) :
    (b.getBalance accountId).2 = b := by
  cases hf : b.findAccountById accountId <;> simp [Bank.getBalance, hf]

/-- `createAccount` preserves the invariant the code maintains. -/
theorem codeInvariant_createAccount (b : Bank) (u : String) (age n : Int)
    (h : codeInvariant b) : codeInvariant (b.createAccount u age n).2 := by
  by_cases h1 : isAccountNumberInvalid n = true
  · simpa [Bank.createAccount, h1] using h
  · by_cases h2 : b.isUsernameExisits u = true
    · by_cases h3 : age < 18
      · simpa [Bank.createAccount, h1, h2, h3] using h
      · by_cases h4 : (b.findAccountById n).isSome = true
        · simpa [Bank.createAccount, h1, h2, h3, h4] using h
        · have hnone : b.findAccountById n = none :=
            Option.not_isSome_iff_eq_none.mp h4
          have hfresh : ∀ x ∈ b.accounts, x.id ≠ n := by
            intro x hx
            have := List.find?_eq_none.mp hnone x hx
            simpa using this
          obtain ⟨hbal, hid, hpw⟩ := h
          simp only [Bank.createAccount, h1, h2, h3, h4, if_neg, if_pos,
            Bool.not_true, Bool.false_eq_true, if_false, ite_false, ite_true]
          refine ⟨?_, ?_, ?_⟩
          · intro a ha
            rcases List.mem_append.mp ha with ha | ha
            · exact hbal a ha
            · simp at ha
              simp [ha]
          · intro a ha
            rcases List.mem_append.mp ha with ha | ha
            · exact hid a ha
            · simp at ha
              simp [ha]
              simpa using h1
          · rw [List.pairwise_append]
            refine ⟨hpw, by simp, ?_⟩
            intro x hx y hy
            simp at hy
            simp [hy]
            exact hfresh x hx
    · simpa [Bank.createAccount, h1, h2] using h

/-- `deposit` preserves the invariant the code maintains. -/
theorem codeInvariant_deposit (b : Bank) (accountId amt : Int)
    (h : codeInvariant b) : codeInvariant (b.deposit accountId amt).2 := by
  cases hfind : b.findAccountById accountId with
  | none => simpa [Bank.deposit, hfind] using h
  | some a =>
    by_cases hamt : amt ≤ 0
    · simpa [Bank.deposit, hfind, hamt] using h
    · obtain ⟨l1, l2, hl, h1, ha, hupd⟩ := findAccountById_decomp hfind
      obtain ⟨hbal, hid, hpw⟩ := h
      have key := hupd (fun x => { x with balance := x.balance + amt })
      simp only [Bank.deposit, hfind, if_neg hamt]
      rw [key]
      have hmem : a ∈ b.accounts := by rw [hl]; simp
      refine ⟨?_, ?_, ?_⟩
      · intro x hx
        rcases List.mem_append.mp hx with hx | hx
        · exact hbal x (by rw [hl]; exact List.mem_append_left _ hx)
        · rcases List.mem_cons.mp hx with hx | hx
          · subst hx
            exact add_nonneg (hbal a hmem) (le_of_lt (not_le.mp hamt))
          · exact hbal x (by rw [hl]; exact List.mem_append_right _ (by simp [hx]))
      · intro x hx
        rcases List.mem_append.mp hx with hx | hx
        · exact hid x (by rw [hl]; exact List.mem_append_left _ hx)
        · rcases List.mem_cons.mp hx with hx | hx
          · subst hx
            exact hid a hmem
          · exact hid x (by rw [hl]; exact List.mem_append_right _ (by simp [hx]))
      · rw [pairwise_ids_iff] at hpw ⊢
        rw [hl] at hpw
        simpa using hpw

/-- `withdraw` preserves the invariant the code maintains. -/
theorem codeInvariant_withdraw (b : Bank) (accountId amt : Int)
    (h : codeInvariant b) : codeInvariant (b.withdraw accountId amt).2 := by
  cases hfind : b.findAccountById accountId with
  | none => simpa [Bank.withdraw, hfind] using h
  | some a =>
    by_cases hamt : amt ≤ 0
    · simpa [Bank.withdraw, hfind, hamt] using h
    · by_cases hfund : a.balance < amt
      · simpa [Bank.withdraw, hfind, hamt, hfund] using h
      · obtain ⟨l1, l2, hl, h1, ha, hupd⟩ := findAccountById_decomp hfind
        obtain ⟨hbal, hid, hpw⟩ := h
        have key := hupd (fun x => { x with balance := x.balance - amt })
        simp only [Bank.withdraw, hfind, if_neg hamt, if_neg hfund]
        rw [key]
        have hmem : a ∈ b.accounts := by rw [hl]; simp
        refine ⟨?_, ?_, ?_⟩
        · intro x hx
          rcases List.mem_append.mp hx with hx | hx
          · exact hbal x (by rw [hl]; exact List.mem_append_left _ hx)
          · rcases List.mem_cons.mp hx with hx | hx
            · subst hx
              exact sub_nonneg.mpr (not_lt.mp hfund)
            · exact hbal x (by rw [hl]; exact List.mem_append_right _ (by simp [hx]))
        · intro x hx
          rcases List.mem_append.mp hx with hx | hx
          · exact hid x (by rw [hl]; exact List.mem_append_left _ hx)
          · rcases List.mem_cons.mp hx with hx | hx
            · subst hx
              exact hid a hmem
            · exact hid x (by rw [hl]; exact List.mem_append_right _ (by simp [hx]))
        · rw [pairwise_ids_iff] at hpw ⊢
          rw [hl] at hpw
          simpa using hpw

/-- One operation call preserves the invariant the code maintains. -/
theorem codeInvariant_applyOp (b : Bank) (op : Op) (h : codeInvariant b) :
    codeInvariant (b.applyOp op) := by
  cases op with
  | create u age n => exact codeInvariant_createAccount b u age n h
  | dep accountId amt => exact codeInvariant_deposit b accountId amt h
  | wd accountId amt => exact codeInvariant_withdraw b accountId amt h
  | bal accountId =>
    show codeInvariant (b.getBalance accountId).2
    rw [getBalance_snd]
    exact h

/-! ### Claim theorems -/

/-- C1 (amended): starting from a bank whose snapshot satisfies the
invariants the code maintains — every balance is at least 0, every id passes
the source's account-number check (its decimal string, sign included, has
length 10), and all ids are pairwise distinct — every sequence of
`createAccount`, `deposit`, `withdraw` and `getBalance` calls preserves
those invariants.  The original claim's "exactly 10 decimal digits" fails:
`createAccount` accepts a negative 9-digit account number, whose string also
has length 10. -/
theorem c1_operations_preserve_invariants (b : Bank) (ops : List Op)
    (h : codeInvariant b) : codeInvariant (b.runOps ops) := by
  induction ops generalizing b with
  | nil => exact h
  | cons op rest ih => exact ih _ (codeInvariant_applyOp b op h)

/-- C1 counterexample: a bank satisfying all the spec-stated invariants
(one account, id `1234567890`, balance 5000, user `"user1"` registered)
accepts `createAccount("user1", 20, -123456789)`, and the resulting state
holds an account whose id `-123456789` does not have 10 decimal digits. -/
theorem c1_counterexample :
    specInvariant ⟨[⟨1234567890, 5000⟩], ["user1"]⟩ ∧
    (Bank.runOps ⟨[⟨1234567890, 5000⟩], ["user1"]⟩
        [Op.create "user1" 20 (-123456789)]).accounts =
      [⟨1234567890, 5000⟩, ⟨-123456789, 0⟩] ∧
    hasTenDecimalDigits (-123456789) = false :=
  ⟨by decide, by rfl, by decide⟩

/-- C1 witness: the preserved invariant evaluated on a concrete run. -/
theorem c1_witness :
    codeInvariant ⟨[⟨1234567890, 5000⟩], ["user1"]⟩ ∧
    codeInvariant (Bank.runOps ⟨[⟨1234567890, 5000⟩], ["user1"]⟩
      [Op.create "user1" 20 1234567892, Op.dep 1234567890 1000,
        Op.wd 1234567890 500, Op.bal 1234567890]) :=
  ⟨by decide, c1_operations_preserve_invariants ⟨[⟨1234567890, 5000⟩], ["user1"]⟩
    [Op.create "user1" 20 1234567892, Op.dep 1234567890 1000,
      Op.wd 1234567890 500, Op.bal 1234567890] (by decide)⟩

/-- C2 (amended): `createAccount` checks its four preconditions in the fixed
order account-number validity (the source's check: decimal string of length
10), then username membership, then age, then duplicate id, and the first
failing check determines the reported error.  The original claim's reading
of check (1) as "exactly 10 digits" fails: a negative 9-digit account number
passes the source's check, so a simultaneous username failure is reported as
`userNotFound`, not `invalidAccountNumber`. -/
theorem c2_createAccount_check_order (b : Bank) (u : String) (age n : Int) :
    (isAccountNumberInvalid n = true →
      (b.createAccount u age n).1 = .error .invalidAccountNumber) ∧
    (isAccountNumberInvalid n = false → b.isUsernameExisits u = false →
      (b.createAccount u age n).1 = .error .userNotFound) ∧
    (isAccountNumberInvalid n = false → b.isUsernameExisits u = true →
      age < 18 → (b.createAccount u age n).1 = .error .userUnder18) ∧
    (isAccountNumberInvalid n = false → b.isUsernameExisits u = true →
      18 ≤ age → (b.findAccountById n).isSome = true →
      (b.createAccount u age n).1 = .error .accountAlreadyExists) := by
  refine ⟨?_, ?_, ?_, ?_⟩
  · intro h1
    simp [Bank.createAccount, h1]
  · intro h1 h2
    simp [Bank.createAccount, h1, h2]
  · intro h1 h2 h3
    simp [Bank.createAccount, h1, h2, h3]
  · intro h1 h2 h3 h4
    simp [Bank.createAccount, h1, h2, not_lt.mpr h3, h4]

/-- C2 counterexample: with no registered usernames, the call
`createAccount("user3", 20, -123456789)` has an account number that is not
exactly 10 decimal digits and an unknown username; the claim says the
earliest check (1) fails and `invalidAccountNumber` is reported, but the
code reports `userNotFound`. -/
theorem c2_counterexample :
    hasTenDecimalDigits (-123456789) = false ∧
    (Bank.createAccount ⟨[], []⟩ "user3" 20 (-123456789)).1 =
      .error .userNotFound :=
  ⟨by decide, by rfl⟩

/-- C2 witness: each of the four error branches reached at a concrete
input. -/
theorem c2_witness :
    (Bank.createAccount ⟨[], ["user1"]⟩ "user1" 20 123).1 =
      .error .invalidAccountNumber ∧
    (Bank.createAccount ⟨[], []⟩ "user9" 20 1234567890).1 =
      .error .userNotFound ∧
    (Bank.createAccount ⟨[], ["user1"]⟩ "user1" 17 1234567890).1 =
      .error .userUnder18 ∧
    (Bank.createAccount ⟨[⟨1234567890, 0⟩], ["user1"]⟩ "user1" 20
        1234567890).1 = .error .accountAlreadyExists :=
  ⟨(c2_createAccount_check_order ⟨[], ["user1"]⟩ "user1" 20 123).1 (by decide),
   (c2_createAccount_check_order ⟨[], []⟩ "user9" 20 1234567890).2.1
     (by decide) (by decide),
   (c2_createAccount_check_order ⟨[], ["user1"]⟩ "user1" 17 1234567890).2.2.1
     (by decide) (by decide) (by decide),
   (c2_createAccount_check_order ⟨[⟨1234567890, 0⟩], ["user1"]⟩ "user1" 20
       1234567890).2.2.2 (by decide) (by decide) (by decide) (by decide)⟩

/-- C3 (amended): whenever the account number's decimal string (sign
included) does not have length 10 — for a non-negative number, not exactly
10 digits; for a negative number, not exactly 9 digits — `createAccount`
fails with `invalidAccountNumber`, regardless of the other parameters and of
the bank state.  The original claim's "decimal-digit count differs from 10"
fails on negative 9-digit numbers, which the source accepts. -/
theorem c3_invalid_account_number (b : Bank) (u : String) (age n : Int)
    (h : (toString n).length ≠ 10) :
    (b.createAccount u age n).1 = .error .invalidAccountNumber := by
  have hinv : isAccountNumberInvalid n = true := by
    simp [Bank.isAccountNumberInvalid, h]
  simp [Bank.createAccount, hinv]

/-- C3 counterexample: `-123456789` has 9 decimal digits, yet
`createAccount("user1", 20, -123456789)` succeeds (its string has length
10), instead of failing with `invalidAccountNumber` as the claim states. -/
theorem c3_counterexample :
    hasTenDecimalDigits (-123456789) = false ∧
    (Bank.createAccount ⟨[], ["user1"]⟩ "user1" 20 (-123456789)).1 =
      .ok ⟨-123456789, 0⟩ :=
  ⟨by decide, by rfl⟩

/-- C3 witness: a 9-digit non-negative account number is rejected. -/
theorem c3_witness :
    (Bank.createAccount ⟨[], ["user1"]⟩ "user1" 20 123456789).1 =
      .error .invalidAccountNumber :=
  c3_invalid_account_number ⟨[], ["user1"]⟩ "user1" 20 123456789 (by decide)

/-- C4: a successful `createAccount(username, age, accountNumber)` returns
the account `{ id := accountNumber, balance := 0 }`, appends exactly that
account at the end of the account collection, and changes nothing else: all
previous accounts and the registered-usernames list are untouched. -/
theorem c4_create_success (b : Bank) (u : String) (age n : Int)
    (acc : AccountType) (b' : Bank)
    (h : b.createAccount u age n = (.ok acc, b')) :
    acc = ⟨n, 0⟩ ∧ b'.accounts = b.accounts ++ [acc] ∧
      b'.usernames = b.usernames := by
  by_cases h1 : isAccountNumberInvalid n = true
  · simp [Bank.createAccount, h1] at h
  · by_cases h2 : b.isUsernameExisits u = true
    · by_cases h3 : age < 18
      · simp [Bank.createAccount, h1, h2, h3] at h
      · by_cases h4 : (b.findAccountById n).isSome = true
        · simp [Bank.createAccount, h1, h2, h3, h4] at h
        · simp only [Bank.createAccount, h1, h2, h3, h4, Bool.not_true,
            Bool.false_eq_true, if_false, ite_false, ite_true,
            Bool.not_false, if_neg, if_true, Prod.mk.injEq] at h
          obtain ⟨hacc, hb'⟩ := h
          cases hacc
          subst hb'
          exact ⟨rfl, rfl, rfl⟩
    · simp [Bank.createAccount, h1, h2] at h

/-- C4 witness: the concrete success from the test script. -/
theorem c4_witness :
    (⟨1234567892, 0⟩ : AccountType) = ⟨1234567892, 0⟩ ∧
    (⟨[⟨1234567890, 5000⟩, ⟨1234567892, 0⟩], ["user1"]⟩ : Bank).accounts =
      (⟨[⟨1234567890, 5000⟩], ["user1"]⟩ : Bank).accounts ++
        [⟨1234567892, 0⟩] ∧
    (⟨[⟨1234567890, 5000⟩, ⟨1234567892, 0⟩], ["user1"]⟩ : Bank).usernames =
      (⟨[⟨1234567890, 5000⟩], ["user1"]⟩ : Bank).usernames :=
  c4_create_success ⟨[⟨1234567890, 5000⟩], ["user1"]⟩ "user1" 20 1234567892
    ⟨1234567892, 0⟩ ⟨[⟨1234567890, 5000⟩, ⟨1234567892, 0⟩], ["user1"]⟩
    (by rfl)

/-- C5: writing the account list as a prefix with no matching id, the first
account with the requested id, and an arbitrary suffix: a successful deposit
replaces exactly that account by one whose balance grew by exactly `amt` and
returns it, and a successful withdraw replaces it by one whose balance
shrank by exactly `amt` and returns it; the prefix, the suffix and the
usernames are unchanged verbatim. -/
theorem c5_exact_balance_change (l1 : List AccountType) (a : AccountType)
    (l2 : List AccountType) (us : List String) (amt : Int)
    (h1 : ∀ x ∈ l1, x.id ≠ a.id) :
    (0 < amt →
      Bank.deposit ⟨l1 ++ a :: l2, us⟩ a.id amt =
        (.ok { a with balance := a.balance + amt },
          ⟨l1 ++ { a with balance := a.balance + amt } :: l2, us⟩)) ∧
    (0 < amt → amt ≤ a.balance →
      Bank.withdraw ⟨l1 ++ a :: l2, us⟩ a.id amt =
        (.ok { a with balance := a.balance - amt },
          ⟨l1 ++ { a with balance := a.balance - amt } :: l2, us⟩)) := by
  have hfind : Bank.findAccountById ⟨l1 ++ a :: l2, us⟩ a.id = some a :=
    find?_first_of_split a l2 h1
  constructor
  · intro hamt
    have hupd := updateFirstById_split
      (fun x => { x with balance := x.balance + amt }) a l2 h1 rfl
    simp [Bank.deposit, hfind, not_le.mpr hamt, hupd]
  · intro hamt hfund
    have hupd := updateFirstById_split
      (fun x => { x with balance := x.balance - amt }) a l2 h1 rfl
    simp [Bank.withdraw, hfind, not_le.mpr hamt, not_lt.mpr hfund, hupd]

/-- C5 witness: the concrete deposit and withdraw from the test script. -/
theorem c5_witness :
    Bank.deposit ⟨[⟨1234567890, 5000⟩], ["user1"]⟩ 1234567890 1000 =
      (.ok ⟨1234567890, 6000⟩, ⟨[⟨1234567890, 6000⟩], ["user1"]⟩) ∧
    Bank.withdraw ⟨[⟨1234567890, 5000⟩], ["user1"]⟩ 1234567890 1000 =
      (.ok ⟨1234567890, 4000⟩, ⟨[⟨1234567890, 4000⟩], ["user1"]⟩) :=
  ⟨(c5_exact_balance_change [] ⟨1234567890, 5000⟩ [] ["user1"] 1000
      (by simp)).1 (by decide),
   (c5_exact_balance_change [] ⟨1234567890, 5000⟩ [] ["user1"] 1000
      (by simp)).2 (by decide) (by decide)⟩

/-- C6: `deposit` and `withdraw` check existence before amount validity:
with no matching account they fail with `accountNotFound` for every amount,
non-positive amounts included, and with a matching account a non-positive
amount fails with the invalid-amount error (the source's
`invalidDepositAmount` / `invalidWithdrawalAmount`, the spec's
`InvalidAmount`); the bank is unchanged in every case. -/
theorem c6_error_order (b : Bank) (accountId amt : Int) :
    (b.findAccountById accountId = none →
      b.deposit accountId amt = (.error .accountNotFound, b) ∧
      b.withdraw accountId amt = (.error .accountNotFound, b)) ∧
    (∀ a, b.findAccountById accountId = some a → amt ≤ 0 →
      b.deposit accountId amt = (.error .invalidDepositAmount, b) ∧
      b.withdraw accountId amt = (.error .invalidWithdrawalAmount, b)) := by
  constructor
  · intro h
    exact ⟨by simp [Bank.deposit, h], by simp [Bank.withdraw, h]⟩
  · intro a h hamt
    exact ⟨by simp [Bank.deposit, h, hamt], by simp [Bank.withdraw, h, hamt]⟩

/-- C6 witness: a missing account with a negative amount reports
`accountNotFound`; an existing account with a negative amount reports the
invalid-amount error. -/
theorem c6_witness :
    Bank.deposit ⟨[⟨1234567890, 5000⟩], []⟩ 9999999999 (-100) =
      (.error .accountNotFound, ⟨[⟨1234567890, 5000⟩], []⟩) ∧
    Bank.withdraw ⟨[⟨1234567890, 5000⟩], []⟩ 9999999999 (-100) =
      (.error .accountNotFound, ⟨[⟨1234567890, 5000⟩], []⟩) ∧
    Bank.deposit ⟨[⟨1234567890, 5000⟩], []⟩ 1234567890 (-100) =
      (.error .invalidDepositAmount, ⟨[⟨1234567890, 5000⟩], []⟩) ∧
    Bank.withdraw ⟨[⟨1234567890, 5000⟩], []⟩ 1234567890 (-100) =
      (.error .invalidWithdrawalAmount, ⟨[⟨1234567890, 5000⟩], []⟩) :=
  ⟨((c6_error_order ⟨[⟨1234567890, 5000⟩], []⟩ 9999999999 (-100)).1
      (by rfl)).1,
   ((c6_error_order ⟨[⟨1234567890, 5000⟩], []⟩ 9999999999 (-100)).1
      (by rfl)).2,
   ((c6_error_order ⟨[⟨1234567890, 5000⟩], []⟩ 1234567890 (-100)).2
      ⟨1234567890, 5000⟩ (by rfl) (by decide)).1,
   ((c6_error_order ⟨[⟨1234567890, 5000⟩], []⟩ 1234567890 (-100)).2
      ⟨1234567890, 5000⟩ (by rfl) (by decide)).2⟩

/-- C7: with the first matching account `a`, a positive amount exceeding
`a.balance` makes `withdraw` fail with `insufficientFunds` and leaves the
bank (hence the balance) unchanged; a positive amount at most `a.balance`
never yields `insufficientFunds`; and a non-positive amount is rejected as
`invalidWithdrawalAmount` before the funds check, completing the check
order existence, positivity, sufficiency. -/
theorem c7_insufficient_funds (b : Bank) (accountId amt : Int)
    (a : AccountType) (h : b.findAccountById accountId = some a) :
    (0 < amt → a.balance < amt →
      b.withdraw accountId amt = (.error .insufficientFunds, b)) ∧
    (0 < amt → amt ≤ a.balance →
      (b.withdraw accountId amt).1 ≠ .error .insufficientFunds) ∧
    (amt ≤ 0 →
      b.withdraw accountId amt = (.error .invalidWithdrawalAmount, b)) := by
  refine ⟨?_, ?_, ?_⟩
  · intro hpos hfund
    simp [Bank.withdraw, h, not_le.mpr hpos, hfund]
  · intro hpos hfund
    simp [Bank.withdraw, h, not_le.mpr hpos, not_lt.mpr hfund]
  · intro hneg
    simp [Bank.withdraw, h, hneg]

/-- C7 witness: the test script's insufficient-funds scenario, the matching
successful withdrawal, and a negative amount. -/
theorem c7_witness :
    Bank.withdraw ⟨[⟨1234567890, 5000⟩], []⟩ 1234567890 10000 =
      (.error .insufficientFunds, ⟨[⟨1234567890, 5000⟩], []⟩) ∧
    (Bank.withdraw ⟨[⟨1234567890, 5000⟩], []⟩ 1234567890 1000).1 ≠
      .error .insufficientFunds ∧
    Bank.withdraw ⟨[⟨1234567890, 5000⟩], []⟩ 1234567890 (-100) =
      (.error .invalidWithdrawalAmount, ⟨[⟨1234567890, 5000⟩], []⟩) :=
  ⟨(c7_insufficient_funds ⟨[⟨1234567890, 5000⟩], []⟩ 1234567890 10000
      ⟨1234567890, 5000⟩ (by rfl)).1 (by decide) (by decide),
   (c7_insufficient_funds ⟨[⟨1234567890, 5000⟩], []⟩ 1234567890 1000
      ⟨1234567890, 5000⟩ (by rfl)).2.1 (by decide) (by decide),
   (c7_insufficient_funds ⟨[⟨1234567890, 5000⟩], []⟩ 1234567890 (-100)
      ⟨1234567890, 5000⟩ (by rfl)).2.2 (by decide)⟩

/-- C8: every operation is atomic: a call whose result is an error leaves
the bank exactly as it was, `getBalance` leaves the bank unchanged even on
success, and no operation ever changes the registered-usernames list. -/
theorem c8_atomicity (b : Bank) :
    (∀ u age n e, (b.createAccount u age n).1 = .error e →
      (b.createAccount u age n).2 = b) ∧
    (∀ accountId amt e, (b.deposit accountId amt).1 = .error e →
      (b.deposit accountId amt).2 = b) ∧
    (∀ accountId amt e, (b.withdraw accountId amt).1 = .error e →
      (b.withdraw accountId amt).2 = b) ∧
    (∀ accountId, (b.getBalance accountId).2 = b) ∧
    (∀ op, (b.applyOp op).usernames = b.usernames) := by
  have hcreate : ∀ u age n, (b.createAccount u age n).2 = b ∨
      ∃ acc, (b.createAccount u age n).1 = .ok acc := by
    intro u age n
    by_cases h1 : isAccountNumberInvalid n = true
    · exact Or.inl (by simp [Bank.createAccount, h1])
    · by_cases h2 : b.isUsernameExisits u = true
      · by_cases h3 : age < 18
        · exact Or.inl (by simp [Bank.createAccount, h1, h2, h3])
        · by_cases h4 : (b.findAccountById n).isSome = true
          · exact Or.inl (by simp [Bank.createAccount, h1, h2, h3, h4])
          · exact Or.inr ⟨⟨n, 0⟩, by simp [Bank.createAccount, h1, h2, h3, h4]⟩
      · exact Or.inl (by simp [Bank.createAccount, h1, h2])
  have hdep : ∀ accountId amt, (b.deposit accountId amt).2 = b ∨
      ∃ acc, (b.deposit accountId amt).1 = .ok acc := by
    intro accountId amt
    cases hf : b.findAccountById accountId with
    | none => exact Or.inl (by simp [Bank.deposit, hf])
    | some a =>
      by_cases hamt : amt ≤ 0
      · exact Or.inl (by simp [Bank.deposit, hf, hamt])
      · exact Or.inr ⟨{ a with balance := a.balance + amt },
          by simp [Bank.deposit, hf, hamt]⟩
  have hwd : ∀ accountId amt, (b.withdraw accountId amt).2 = b ∨
      ∃ acc, (b.withdraw accountId amt).1 = .ok acc := by
    intro accountId amt
    cases hf : b.findAccountById accountId with
    | none => exact Or.inl (by simp [Bank.withdraw, hf])
    | some a =>
      by_cases hamt : amt ≤ 0
      · exact Or.inl (by simp [Bank.withdraw, hf, hamt])
      · by_cases hfund : a.balance < amt
        · exact Or.inl (by simp [Bank.withdraw, hf, hamt, hfund])
        · exact Or.inr ⟨{ a with balance := a.balance - amt },
            by simp [Bank.withdraw, hf, hamt, hfund]⟩
  have husers : ∀ u age n, (b.createAccount u age n).2.usernames = b.usernames := by
    intro u age n
    rcases hcreate u age n with h | ⟨acc, h⟩
    · rw [h]
    · by_cases h1 : isAccountNumberInvalid n = true
      · simp [Bank.createAccount, h1]
      · by_cases h2 : b.isUsernameExisits u = true
        · by_cases h3 : age < 18
          · simp [Bank.createAccount, h1, h2, h3]
          · by_cases h4 : (b.findAccountById n).isSome = true
            · simp [Bank.createAccount, h1, h2, h3, h4]
            · simp [Bank.createAccount, h1, h2, h3, h4]
        · simp [Bank.createAccount, h1, h2]
  have husersdep : ∀ accountId amt, (b.deposit accountId amt).2.usernames = b.usernames := by
    intro accountId amt
    cases hf : b.findAccountById accountId with
    | none => simp [Bank.deposit, hf]
    | some a =>
      by_cases hamt : amt ≤ 0
      · simp [Bank.deposit, hf, hamt]
      · simp [Bank.deposit, hf, hamt]
  have huserswd : ∀ accountId amt, (b.withdraw accountId amt).2.usernames = b.usernames := by
    intro accountId amt
    cases hf : b.findAccountById accountId with
    | none => simp [Bank.withdraw, hf]
    | some a =>
      by_cases hamt : amt ≤ 0
      · simp [Bank.withdraw, hf, hamt]
      · by_cases hfund : a.balance < amt
        · simp [Bank.withdraw, hf, hamt, hfund]
        · simp [Bank.withdraw, hf, hamt, hfund]
  refine ⟨?_, ?_, ?_, ?_, ?_⟩
  · intro u age n e he
    rcases hcreate u age n with h | ⟨acc, h⟩
    · exact h
    · rw [he] at h
      cases h
  · intro accountId amt e he
    rcases hdep accountId amt with h | ⟨acc, h⟩
    · exact h
    · rw [he] at h
      cases h
  · intro accountId amt e he
    rcases hwd accountId amt with h | ⟨acc, h⟩
    · exact h
    · rw [he] at h
      cases h
  · intro accountId
    exact getBalance_snd b accountId
  · intro op
    cases op with
    | create u age n => exact husers u age n
    | dep accountId amt => exact husersdep accountId amt
    | wd accountId amt => exact huserswd accountId amt
    | bal accountId =>
      show (b.getBalance accountId).2.usernames = b.usernames
      rw [getBalance_snd]

/-- C8 witness: failing concrete calls leave the concrete bank unchanged,
`getBalance` leaves it unchanged, and a successful `createAccount` call
keeps the usernames. -/
theorem c8_witness :
    (Bank.createAccount ⟨[⟨1234567890, 5000⟩], ["user1"]⟩ "user1" 17
      1234567899).2 = ⟨[⟨1234567890, 5000⟩], ["user1"]⟩ ∧
    (Bank.deposit ⟨[⟨1234567890, 5000⟩], ["user1"]⟩ 1234567890 (-100)).2 =
      ⟨[⟨1234567890, 5000⟩], ["user1"]⟩ ∧
    (Bank.withdraw ⟨[⟨1234567890, 5000⟩], ["user1"]⟩ 1234567890 10000).2 =
      ⟨[⟨1234567890, 5000⟩], ["user1"]⟩ ∧
    (Bank.getBalance ⟨[⟨1234567890, 5000⟩], ["user1"]⟩ 9999999999).2 =
      ⟨[⟨1234567890, 5000⟩], ["user1"]⟩ ∧
    (Bank.applyOp ⟨[⟨1234567890, 5000⟩], ["user1"]⟩
      (Op.create "user1" 20 1234567892)).usernames =
      (⟨[⟨1234567890, 5000⟩], ["user1"]⟩ : Bank).usernames :=
  ⟨(c8_atomicity ⟨[⟨1234567890, 5000⟩], ["user1"]⟩).1 "user1" 17 1234567899
      .userUnder18 (by rfl),
   (c8_atomicity ⟨[⟨1234567890, 5000⟩], ["user1"]⟩).2.1 1234567890 (-100)
      .invalidDepositAmount (by rfl),
   (c8_atomicity ⟨[⟨1234567890, 5000⟩], ["user1"]⟩).2.2.1 1234567890 10000
      .insufficientFunds (by rfl),
   (c8_atomicity ⟨[⟨1234567890, 5000⟩], ["user1"]⟩).2.2.2.1 9999999999,
   (c8_atomicity ⟨[⟨1234567890, 5000⟩], ["user1"]⟩).2.2.2.2
      (Op.create "user1" 20 1234567892)⟩

/-- C9: the constructor stores its snapshot unvalidated: a bank built from
two accounts sharing the id `123` (3 decimal digits), one with balance
`-50`, violates every documented invariant, yet `getBalance` returns the
negative balance and `deposit` mutates the state without reporting any
error. -/
theorem c9_constructor_no_validation :
    ¬ specInvariant ⟨[⟨123, -50⟩, ⟨123, 7⟩], []⟩ ∧
    Bank.getBalance ⟨[⟨123, -50⟩, ⟨123, 7⟩], []⟩ 123 =
      (.ok (-50), ⟨[⟨123, -50⟩, ⟨123, 7⟩], []⟩) ∧
    Bank.deposit ⟨[⟨123, -50⟩, ⟨123, 7⟩], []⟩ 123 10 =
      (.ok ⟨123, -40⟩, ⟨[⟨123, -40⟩, ⟨123, 7⟩], []⟩) :=
  ⟨by decide, by rfl, by rfl⟩

/-- C10: in a state holding a later duplicate of the requested id (reachable
only through the unvalidated constructor), `getBalance`, `deposit` and
`withdraw` read and mutate only the first matching account: `getBalance`
reports the first match's balance, `deposit` and `withdraw` replace only the
first match, and the withdraw funds check consults only the first match's
balance; the suffix holding the duplicate is returned verbatim. -/
theorem c10_first_match_only (l1 : List AccountType) (a : AccountType)
    (l2 : List AccountType) (us : List String) (amt : Int)
    (dup : AccountType) (_hdup : dup ∈ l2) (_hdupid : dup.id = a.id)
    (h1 : ∀ x ∈ l1, x.id ≠ a.id) :
    Bank.getBalance ⟨l1 ++ a :: l2, us⟩ a.id =
      (.ok a.balance, ⟨l1 ++ a :: l2, us⟩) ∧
    (0 < amt →
      Bank.deposit ⟨l1 ++ a :: l2, us⟩ a.id amt =
        (.ok { a with balance := a.balance + amt },
          ⟨l1 ++ { a with balance := a.balance + amt } :: l2, us⟩)) ∧
    (0 < amt →
      Bank.withdraw ⟨l1 ++ a :: l2, us⟩ a.id amt =
        if a.balance < amt then
          (.error .insufficientFunds, ⟨l1 ++ a :: l2, us⟩)
        else
          (.ok { a with balance := a.balance - amt },
            ⟨l1 ++ { a with balance := a.balance - amt } :: l2, us⟩)) := by
  have hfind : Bank.findAccountById ⟨l1 ++ a :: l2, us⟩ a.id = some a :=
    find?_first_of_split a l2 h1
  refine ⟨?_, ?_, ?_⟩
  · simp [Bank.getBalance, hfind]
  · intro hamt
    have hupd := updateFirstById_split
      (fun x => { x with balance := x.balance + amt }) a l2 h1 rfl
    simp [Bank.deposit, hfind, not_le.mpr hamt, hupd]
  · intro hamt
    by_cases hfund : a.balance < amt
    · simp [Bank.withdraw, hfind, not_le.mpr hamt, hfund]
    · have hupd := updateFirstById_split
        (fun x => { x with balance := x.balance - amt }) a l2 h1 rfl
      simp [Bank.withdraw, hfind, not_le.mpr hamt, hfund, hupd]

/-- C10 witness: with two accounts sharing id `1234567890`, the balance
read, the deposit and the withdraw all hit the first one; the duplicate's
balance `777` is never read or changed. -/
theorem c10_witness :
    Bank.getBalance ⟨[⟨1234567890, 5000⟩, ⟨1234567890, 777⟩], []⟩
      1234567890 =
      (.ok 5000, ⟨[⟨1234567890, 5000⟩, ⟨1234567890, 777⟩], []⟩) ∧
    Bank.deposit ⟨[⟨1234567890, 5000⟩, ⟨1234567890, 777⟩], []⟩
      1234567890 1000 =
      (.ok ⟨1234567890, 6000⟩,
        ⟨[⟨1234567890, 6000⟩, ⟨1234567890, 777⟩], []⟩) ∧
    Bank.withdraw ⟨[⟨1234567890, 5000⟩, ⟨1234567890, 777⟩], []⟩
      1234567890 1000 =
      (.ok ⟨1234567890, 4000⟩,
        ⟨[⟨1234567890, 4000⟩, ⟨1234567890, 777⟩], []⟩) := by
  have h := c10_first_match_only [] ⟨1234567890, 5000⟩ [⟨1234567890, 777⟩]
    [] 1000 ⟨1234567890, 777⟩ (by simp) rfl (by simp)
  refine ⟨h.1, h.2.1 (by decide), ?_⟩
  have h3 := h.2.2 (by decide)
  rw [if_neg (by decide)] at h3
  exact h3

example : Bank.isAccountNumberInvalid 1234567890 = false := by decide
example : Bank.isAccountNumberInvalid (-123456789) = false := by decide
example : Bank.isAccountNumberInvalid 123456789 = true := by decide
example : Bank.isAccountNumberInvalid (-1234567890) = true := by decide
example :
    (Bank.createAccount ⟨[], ["user1"]⟩ "user1" 20 (-123456789)).1 =
      .ok ⟨-123456789, 0⟩ := by rfl
example :
    (Bank.deposit ⟨[⟨1234567890, 5000⟩], []⟩ 1234567890 1000).1 =
      .ok ⟨1234567890, 6000⟩ := by rfl
